import Mathlib

/-!
Shallow embedding of the `fastapi-practice` teaching corpus (Day01–Day07
lesson files) together with proofs about the behaviour of the embedded
routes and functions.

Conventions used throughout:
* pure Python functions become Lean functions;
* the framework's parameter-validation step is embedded as an explicit
  function that runs before the handler, returning `Except`/`Option`/`Bool`
  so that "validation fails with a client error before the handler runs"
  is the `error`/`none`/`false` branch;
* Python `str` becomes `String`, `int` becomes `Int` (or `Nat` where the
  source only ever sees non-negative values), `float` literals used in
  constraint checks become `Rat`;
* optional values (`X | None = None`) become `Option`.
-/

/-! ## Day01/02.py — `get_name_with_age`

The file defines `get_name_with_age` three times; the final definition
(the one in scope at module end) takes `age : int | float | None = None`.
Python renders an integer age as its decimal digits and a float age as
`<integral part>.<fractional digits>`; we embed the numbers that can flow
in as an inductive with exactly that rendering. -/

/-- Embedding of the Python numeric values passed as `age`: either an
`int`, or a `float` written as an integral part plus fractional digits
(e.g. `25.5` is `.float 25 "5"`). -/
inductive PyNumber where
  | int (n : Int)
  | float (ip : Int) (fracDigits : String)
  deriving DecidableEq, Repr

/-- Python `str()` on a `PyNumber`. -/
def PyNumber.str : PyNumber → String
  | .int n => toString n
  | .float ip fd => toString ip ++ "." ++ fd

/-- Embedding of the final `get_name_with_age` of Day01/02.py:
`age` defaults to `None`; if it is `None` the result is
`name + " has no age"`, otherwise `name + " is this old: " + str(age)`. -/
def get_name_with_age (name : String) (age : Option PyNumber := none) : String :=
  match age with
  | none => name ++ " has no age"
  | some a => name ++ " is this old: " ++ a.str

/-! ## Day02/03.py — enumerated path parameter `/models/{model_name}` -/

/-- Embedding of the `ModelName(str, Enum)` class of Day02/03.py. -/
inductive ModelName where
  | alexnet
  | resnet
  | lenet
  deriving DecidableEq, Repr

/-- The string value of each enumeration member (`ModelName.x.value`). -/
def ModelName.value : ModelName → String
  | .alexnet => "alexnet"
  | .resnet => "resnet"
  | .lenet => "lenet"

/-- Framework validation of the `model_name` path segment: the segment is
accepted exactly when it equals one of the three member values; any other
segment is rejected (`none`) before the handler runs. -/
def parse_model_name (s : String) : Option ModelName :=
  if s = "alexnet" then some .alexnet
  else if s = "resnet" then some .resnet
  else if s = "lenet" then some .lenet
  else none

/-- Response shape of `get_model`. -/
structure ModelResponse where
  model_name : String
  message : String
  deriving DecidableEq, Repr

/-- Embedding of the `get_model` handler of Day02/03.py, with the source's
branch structure: first `model_name is ModelName.alexnet`, then
`model_name.value == "lenet"`, then the default (resnet) branch. -/
def get_model (model_name : ModelName) : ModelResponse :=
  if model_name = ModelName.alexnet then
    { model_name := model_name.value, message := "Deep Learning FTW!" }
  else if model_name.value == "lenet" then
    { model_name := model_name.value, message := "LeCNN all the images" }
  else
    { model_name := model_name.value, message := "Have some residuals" }

/-! ## Day02/05.py — paginated `GET /items/` -/

/-- Entry of the fixture list (a one-key mapping `{"item_name": ...}`). -/
structure FixtureItem where
  item_name : String
  deriving DecidableEq, Repr

/-- The fixed three-element fixture list of Day02/05.py. -/
def fake_items_db : List FixtureItem :=
  [{ item_name := "Foo" }, { item_name := "Bar" }, { item_name := "Baz" }]

/-- Embedding of the paginated `read_items` handler of Day02/05.py:
`return fake_items_db[skip : skip + limit]`.  For the non-negative
integers this route deals in, the Python slice `l[a : b]` keeps the
elements whose index lies in `[a, b)`, i.e. drop `a` then take `b - a`. -/
def read_items_paginated (skip : Nat := 0) (limit : Nat := 10) : List FixtureItem :=
  (fake_items_db.drop skip).take limit

/-- Independent specification of the Python slice `l[a : b]` for
non-negative bounds: the elements whose index lies in `[a, b)`, in order. -/
def pySlice {α : Type} (l : List α) (a b : Nat) : List α :=
  ((l.enum.filter fun p => decide (a ≤ p.1 ∧ p.1 < b)).map Prod.snd)

theorem slice_enumFrom {α : Type} (l : List α) (n a b : Nat) :
    (((List.enumFrom n l).filter fun p => decide (a ≤ p.1 ∧ p.1 < b)).map Prod.snd)
      = (l.drop (a - n)).take (b - max n a) := by
  induction l generalizing n with
  | nil => simp
  | cons x xs ih =>
    simp only [List.enumFrom, List.filter_cons, decide_eq_true_eq]
    by_cases h1 : a ≤ n
    · by_cases h2 : n < b
      · rw [if_pos ⟨h1, h2⟩, List.map_cons, ih (n + 1)]
        rw [Nat.sub_eq_zero_of_le h1, Nat.sub_eq_zero_of_le (by omega : a ≤ n + 1)]
        rw [Nat.max_eq_left h1, Nat.max_eq_left (by omega : a ≤ n + 1)]
        have hb : b - n = (b - (n + 1)) + 1 := by omega
        rw [hb]
        simp [List.take_succ_cons]
      · rw [if_neg (fun hc => h2 hc.2), ih (n + 1)]
        rw [Nat.max_eq_left h1, Nat.max_eq_left (by omega : a ≤ n + 1)]
        have hb : b - n = 0 := by omega
        have hb2 : b - (n + 1) = 0 := by omega
        rw [hb, hb2]
        simp
    · rw [if_neg (fun hc => h1 hc.1), ih (n + 1)]
      rw [Nat.max_eq_right (by omega : n ≤ a), Nat.max_eq_right (by omega : n + 1 ≤ a)]
      have hd : a - n = (a - (n + 1)) + 1 := by omega
      rw [hd]
      simp [List.drop_succ_cons]

theorem pySlice_eq_drop_take {α : Type} (l : List α) (a b : Nat) :
    pySlice l a b = (l.drop a).take (b - a) := by
  unfold pySlice
  rw [List.enum, slice_enumFrom l 0 a b]
  simp

/-! ## Day02/09.py — `GET /items/` with length-constrained query `q`

The query parameter is declared `Annotated[str | None, Query(min_length=3,
max_length=50)] = None`. -/

/-- Framework validation of the constrained query parameter of
Day02/09.py: an absent `q` passes; a present `q` passes exactly when its
length is at least 3 and at most 50. -/
def validate_q_constrained : Option String → Bool
  | none => true
  | some s => 3 ≤ s.length && s.length ≤ 50

/-- Entry of the fixed item list of Day02/09.py (`{"item_id": ...}`). -/
structure ItemIdEntry where
  item_id : String
  deriving DecidableEq, Repr

/-- Response shape of the constrained-query `read_items`: the fixed item
list plus an optional `"q"` key. -/
structure ConstrainedQueryResponse where
  items : List ItemIdEntry
  q : Option String
  deriving DecidableEq, Repr

/-- Embedding of the `read_items` handler body of Day02/09.py: the base
response holds the fixed two-entry list; `if q:` (a present, non-empty
string) adds the `"q"` key. -/
def read_items_constrained_handler (q : Option String) : ConstrainedQueryResponse :=
  let results : ConstrainedQueryResponse :=
    { items := [{ item_id := "Foo" }, { item_id := "Bar" }], q := none }
  match q with
  | some s => if s ≠ "" then { results with q := some s } else results
  | none => results

/-- The full route of Day02/09.py: framework validation first (an `error`
is the client-error response, produced before the handler runs), then the
handler. -/
def read_items_constrained_route (q : Option String) :
    Except Unit ConstrainedQueryResponse :=
  if validate_q_constrained q then .ok (read_items_constrained_handler q)
  else .error ()

/-! ## Day02/11.py — custom `AfterValidator` on query `id` -/

/-- The fixed 3-entry mapping of Day02/11.py, as an ordered association
list (insertion order of the Python dict). -/
def fixture_data : List (String × String) :=
  [("isbn-9781529046137", "The Hitchhiker\x27s Guide to the Galaxy"),
   ("imdb-tt0371724", "The Hitchhiker\x27s Guide to the Galaxy"),
   ("isbn-9781439512982", "Isaac Asimov: The Complete Stories, Vol. 2")]

/-- Python's `str.startswith`: the second string is a prefix of the
first. -/
def pyStartsWith (s pre : String) : Bool :=
  pre.toList.isPrefixOf s.toList

/-- Embedding of `check_valid_id` of Day02/11.py: the id must start with
`"isbn-"` or `"imdb-"`, otherwise a `ValueError` is raised (the `error`
branch). -/
def check_valid_id (id : String) : Except String String :=
  if pyStartsWith id "isbn-" || pyStartsWith id "imdb-" then .ok id
  else .error "Invalid ID format, it must start with \"isbn-\" or \"imdb-\""

/-- Framework validation of the optional query `id`: an absent id keeps
its default `none` (defaults are not validated); a present id runs the
`AfterValidator`, whose `ValueError` is surfaced as a validation
failure. -/
def validate_id_query : Option String → Except String (Option String)
  | none => .ok none
  | some s => (check_valid_id s).map some

/-- Response shape of Day02/11.py's `read_items`: `{"id": ..., "name": ...}`
where the name is the dictionary lookup (`data.get(id)` can be `None`). -/
structure IdNameResponse where
  id : String
  name : Option String
  deriving DecidableEq, Repr

/-- The random entry taken when `id` is absent: `random.choice` over the
items of the fixed mapping, embedded with the random source made explicit
as an index into the 3 entries. -/
def random_fixture_entry (choice : Fin 3) : String × String :=
  fixture_data.getD choice.val ("", "")

/-- Embedding of the `read_items` handler body of Day02/11.py: `if id:`
(present and non-empty) looks the id up in the mapping; otherwise
`random.choice(list(data.items()))` picks an entry. -/
def read_items_by_id_handler (id : Option String) (choice : Fin 3) : IdNameResponse :=
  match id with
  | some s =>
      if s ≠ "" then { id := s, name := fixture_data.lookup s }
      else
        let p := random_fixture_entry choice
        { id := p.1, name := some p.2 }
  | none =>
      let p := random_fixture_entry choice
      { id := p.1, name := some p.2 }

/-- The full route of Day02/11.py: validation (including the custom
post-validator) runs before the handler; a validation `error` is the
client-error response. -/
def read_items_by_id_route (id : Option String) (choice : Fin 3) :
    Except String IdNameResponse :=
  match validate_id_query id with
  | .error e => .error e
  | .ok idv => .ok (read_items_by_id_handler idv choice)

/-! ## Day02/06.py — `GET /items/{item_id}` with a text path parameter

The handler is declared `item_id: str`, so every path segment passes
framework validation; the handler body then calls `int(item_id)` itself,
which raises an uncaught `ValueError` on non-numeric text. -/

/-- Characters Python's `int()` strips from both ends of its argument. -/
def isPyIntSpace (c : Char) : Bool :=
  c = ' ' || c = '\t' || c = '\n' || c = '\r' || c = '\x0b' || c = '\x0c'

/-- Digit run of a Python base-10 integer literal after the first digit:
digits, with single underscores allowed between digits.  `acc` is the
value of the digits already consumed. -/
def pyIntDigits : List Char → Nat → Option Nat
  | [], acc => some acc
  | c :: rest, acc =>
      if c.isDigit then pyIntDigits rest (acc * 10 + (c.toNat - 48))
      else if c = '_' then
        match rest with
        | [] => none
        | d :: rest2 =>
            if d.isDigit then pyIntDigits rest2 (acc * 10 + (d.toNat - 48))
            else none
      else none

/-- Unsigned part of `int(s)`: at least one leading digit, then
`pyIntDigits`. -/
def pyIntUnsigned : List Char → Option Nat
  | [] => none
  | c :: rest => if c.isDigit then pyIntDigits rest (c.toNat - 48) else none

/-- Embedding of Python's `int(s)` on text, base 10: optional surrounding
whitespace, an optional sign, then decimal digits (with digit-group
underscores); any other text raises `ValueError`, embedded as `none`. -/
def pyInt (s : String) : Option Int :=
  let cs := (((s.toList.dropWhile isPyIntSpace).reverse.dropWhile isPyIntSpace).reverse)
  match cs with
  | '-' :: rest => (pyIntUnsigned rest).map (fun n => -(n : Int))
  | '+' :: rest => (pyIntUnsigned rest).map (fun n => (n : Int))
  | rest => (pyIntUnsigned rest).map (fun n => (n : Int))

/-- Response shape of Day02/06.py's `read_item`: `{"item_id": int}` plus
optional `"q"` and `"description"` keys. -/
structure PathQueryResponse where
  item_id : Int
  q : Option String
  description : Option String
  deriving DecidableEq, Repr

/-- Outcome of a request against Day02/06.py's route: either a success
payload, a structured client-error diagnostic produced by framework
validation, or an unhandled in-handler exception (no structured
diagnostic). -/
inductive RouteOutcome where
  | ok (r : PathQueryResponse)
  | validationError
  | unhandledError
  deriving DecidableEq, Repr

/-- Framework validation of the `item_id` path segment of Day02/06.py:
the parameter is declared `str`, so every segment is accepted. -/
def validate_item_id_text (_segment : String) : Bool := true

/-- Embedding of the full Day02/06.py route: the text path parameter
always reaches the handler, whose body runs `int(item_id)` — an uncaught
exception when the segment is non-numeric — then adds `"q"` when `q` is
truthy and `"description"` unless `short`. -/
def read_item_path_query (item_id : String) (q : Option String := none)
    (short : Bool := false) : RouteOutcome :=
  if validate_item_id_text item_id then
    match pyInt item_id with
    | none => .unhandledError
    | some n =>
        let base : PathQueryResponse := { item_id := n, q := none, description := none }
        let withQ := match q with
          | some s => if s ≠ "" then { base with q := some s } else base
          | none => base
        .ok (if !short then
              { withQ with
                description := some "This is an amazing item that has a long description" }
             else withQ)
  else .validationError

/-! ## Day04/01.py — `Item` with `Field` constraints and `PUT /items/{item_id}`

Field constraints: `name` required with `min_length=1, max_length=100`;
`description` optional with `max_length=500`; `price` required with
`gt=0, le=1000000`; `tax` optional with `ge=0, le=100`.  Numeric fields
are embedded as `Rat`. -/

/-- An incoming JSON payload for the constrained `Item` record: each field
may be present or absent, before validation. -/
structure ItemPayload where
  name : Option String
  description : Option String
  price : Option Rat
  tax : Option Rat
  deriving DecidableEq, Repr

/-- Embedding of the declarative validation of Day04/01.py's `Item`: a
required field must be present and satisfy its constraints; an optional
field is checked only when present. -/
def validate_item_fields (p : ItemPayload) : Bool :=
  (match p.name with
   | some s => 1 ≤ s.length && s.length ≤ 100
   | none => false) &&
  (match p.description with
   | some s => s.length ≤ 500
   | none => true) &&
  (match p.price with
   | some x => 0 < x && x ≤ 1000000
   | none => false) &&
  (match p.tax with
   | some x => 0 ≤ x && x ≤ 100
   | none => true)

/-- Response shape of Day04/01.py's `create_item`:
`{"item_id": ..., "item": ...}`. -/
structure CreateItemResponse where
  item_id : Int
  item : ItemPayload
  deriving DecidableEq, Repr

/-- Embedding of the full `PUT /items/{item_id}` route of Day04/01.py:
the body is validated against the constrained `Item` record before the
handler runs (`none` is the client-error response); on success the
handler echoes `{"item_id": item_id, "item": item}`. -/
def create_item (item_id : Int) (p : ItemPayload) : Option CreateItemResponse :=
  if validate_item_fields p then some { item_id := item_id, item := p }
  else none

/-! ## Day05/06.py and Day05/07.py — password-filtering response models

Day05/06.py declares independent `UserIn`/`UserOut` records and
`response_model=UserOut`; Day05/07.py declares `BaseUser` and
`UserIn(BaseUser)` with return-type annotation `BaseUser`.

The response-shaping step itself lives in the framework, outside this
repository; following the specification it is modelled as a projection of
the returned object onto the declared output record's fields. -/

/-- Embedding of `UserIn` (both lessons): username, password, email, and
an optional full name.  Email-format validation is kept separate (see
`valid_email`). -/
structure UserIn where
  username : String
  password : String
  email : String
  full_name : Option String
  deriving DecidableEq, Repr

/-- Embedding of `UserOut` of Day05/06.py: the password-free output
record. -/
structure UserOut where
  username : String
  email : String
  full_name : Option String
  deriving DecidableEq, Repr

/-- Embedding of `BaseUser` of Day05/07.py: username, email, optional
full name. -/
structure BaseUser where
  username : String
  email : String
  full_name : Option String
  deriving DecidableEq, Repr

/-- Modelled from the spec: the `EmailStr` format check of the external
validation library (not part of this repository).  Faithful to the
lesson's documented examples: exactly one `@`, a non-empty local part,
and a domain containing an internal dot (so `user@example.com` is valid
while `not-an-email`, `@example.com`, `user@` and `user@example` are
not). -/
def valid_email (s : String) : Bool :=
  let cs := s.toList
  let localPart := cs.takeWhile (fun c => c ≠ '@')
  match cs.dropWhile (fun c => c ≠ '@') with
  | _ :: domain =>
      localPart.length > 0 &&
      domain.count '@' == 0 &&
      domain.contains '.' &&
      domain.head? != some '.' &&
      domain.getLast? != some '.'
  | [] => false

/-- Embedding of `POST /user/` of Day05/06.py: the handler returns the
`UserIn` instance and `response_model=UserOut` projects it onto
`UserOut`'s fields before serialization. -/
def create_user_response_model (user : UserIn) : UserOut :=
  { username := user.username, email := user.email, full_name := user.full_name }

/-- Embedding of `POST /user/` of Day05/07.py: the handler returns the
`UserIn` instance and the `BaseUser` return-type annotation projects it
onto `BaseUser`'s fields before serialization. -/
def create_user_inherited (user : UserIn) : BaseUser :=
  { username := user.username, email := user.email, full_name := user.full_name }

/-- JSON serialization of a `UserOut` response as an ordered key/value
list (an absent full name serializes as `null`). -/
def serialize_user_out (u : UserOut) : List (String × String) :=
  [("username", u.username), ("email", u.email),
   ("full_name", u.full_name.getD "null")]

/-- JSON serialization of a `BaseUser` response as an ordered key/value
list. -/
def serialize_base_user (u : BaseUser) : List (String × String) :=
  [("username", u.username), ("email", u.email),
   ("full_name", u.full_name.getD "null")]

/-! ## Day06/01.py — middleware ordering

The lesson registers `middleware1` first, then `middleware2`, each of
which records a pre-event, awaits `call_next`, and records a post-event.
The chaining engine is the framework's, outside this repository; per the
specification it is modelled as an ordered list of wrappers folded from
last to first around the handler, so the first-registered wrapper is
outermost. -/

/-- Observable events of a Day06/01.py request: a middleware's
pre-processing print, the route handler running, a middleware's
post-processing print. -/
inductive MwEvent where
  | pre (name : String)
  | handlerRun
  | post (name : String)
  deriving DecidableEq, Repr

/-- Modelled from the spec: the framework's middleware chaining engine
(not part of this repository) — the chain is built by folding the
registration-ordered list from last to first, each wrapper emitting its
pre-event, running the inner chain, then emitting its post-event. -/
def middleware_chain_trace (registered : List String) : List MwEvent :=
  registered.foldr
    (fun name inner => MwEvent.pre name :: inner ++ [MwEvent.post name])
    [MwEvent.handlerRun]

/-- A request as seen by the Day06/01.py middlewares (middleware1 prints
the path, middleware2 prints the method; the recorded event order does
not depend on either). -/
structure MwRequest where
  path : String
  method : String
  deriving DecidableEq, Repr

/-- The middlewares of Day06/01.py in registration order: `middleware1`
is registered before `middleware2`. -/
def registered_middlewares : List String := ["middleware1", "middleware2"]

/-- Events recorded while Day06/01.py serves one request. -/
def day06_request_trace (_req : MwRequest) : List MwEvent :=
  middleware_chain_trace registered_middlewares

/-- Embedding of the `get_items` handler of Day06/01.py: `"hello"` when
`itemid` is truthy (non-zero), `"nihao"` otherwise. -/
def get_items_day06 (itemid : Int) : String :=
  if itemid ≠ 0 then "hello" else "nihao"

/-! ## Day06/05.py — `Student`/`Course` tables and the join query

The table and query semantics live in the external relational toolkit;
per the specification the store is modelled as lists of rows and the
join as the pairs related by the declared foreign key. -/

/-- Embedding of the `Student` table row of Day06/05.py. -/
structure Student where
  id : Option Int
  name : String
  age : Int
  deriving DecidableEq, Repr

/-- Embedding of the `Course` table row of Day06/05.py: `stu_id` is an
optional foreign key referencing `student.id`. -/
structure Course where
  id : Option Int
  name : String
  stu_id : Option Int
  deriving DecidableEq, Repr

/-- Modelled from the spec: the relational engine's inner join used by
`select_student_course` (`select(Student, Course).join(Course)`), pairing
each student with each course whose foreign key references the student's
primary key. -/
def select_student_course (students : List Student) (courses : List Course) :
    List (Student × Course) :=
  students.flatMap
    (fun s => (courses.filter fun c => c.stu_id == s.id).map (fun c => (s, c)))

/-- Modelled from the spec: querying the `Course` table for the rows
whose foreign key references a given student id. -/
def courses_of_student (courses : List Course) (sid : Int) : List Course :=
  courses.filter fun c => c.stu_id == some sid

/-- The two students inserted by `create_student` of Day06/05.py, with
the primary keys the store assigns them (1 and 2). -/
def fixture_students : List Student :=
  [{ id := some 1, name := "liming", age := 18 },
   { id := some 2, name := "zhangsan", age := 19 }]

/-- The two courses inserted by `create_course` of Day06/05.py, each
referencing one of the two students. -/
def fixture_courses : List Course :=
  [{ id := some 1, name := "math", stu_id := some 1 },
   { id := some 2, name := "chinese", stu_id := some 2 }]

/-- Helper: the course query returns no rows when no course's foreign
key references the given student id. -/
theorem courses_of_student_eq_nil (courses : List Course) (sid : Int)
    (h : ∀ c ∈ courses, c.stu_id ≠ some sid) :
    courses_of_student courses sid = [] := by
  rw [courses_of_student, List.filter_eq_nil_iff]
  intro c hc
  simpa [beq_iff_eq] using h c hc

/-! ## Theorems for the claims -/

/-- C1: for the Day06 middleware lesson, with `middleware1` registered
before `middleware2`, every request produces the recorded event order
[middleware1-pre, middleware2-pre, handler, middleware2-post,
middleware1-post]; in general the folded chain runs pre-processing in
registration order and post-processing in reverse registration order. -/
theorem middleware_order_spec :
    (∀ req : MwRequest,
      day06_request_trace req =
        [MwEvent.pre "middleware1", MwEvent.pre "middleware2", MwEvent.handlerRun,
         MwEvent.post "middleware2", MwEvent.post "middleware1"]) ∧
    (∀ registered : List String,
      middleware_chain_trace registered =
        registered.map MwEvent.pre ++
          MwEvent.handlerRun :: (registered.reverse.map MwEvent.post)) := by
  constructor
  · intro req
    rfl
  · intro registered
    induction registered with
    | nil => rfl
    | cons m ms ih =>
        simp only [middleware_chain_trace, List.foldr_cons] at ih ⊢
        rw [ih]
        simp [List.reverse_cons]

/-- C2: for every valid `UserIn` body, the `POST /user/` response
contains no password key — under both the duplicate-record design and
the inheritance design — and the password value has no influence on the
response. -/
theorem password_never_in_response :
    ∀ u1 u2 : UserIn,
      valid_email u1.email = true →
      ((serialize_user_out (create_user_response_model u1)).map Prod.fst).contains
          "password" = false ∧
      ((serialize_base_user (create_user_inherited u1)).map Prod.fst).contains
          "password" = false ∧
      (u1.username = u2.username → u1.email = u2.email → u1.full_name = u2.full_name →
        create_user_response_model u1 = create_user_response_model u2 ∧
        create_user_inherited u1 = create_user_inherited u2) := by
  intro u1 u2 _hval
  refine ⟨by simp [serialize_user_out], by simp [serialize_base_user], ?_⟩
  intro h1 h2 h3
  constructor
  · simp [create_user_response_model, h1, h2, h3]
  · simp [create_user_inherited, h1, h2, h3]

/-- Witness for C2 at two concrete bodies that differ only in the
password. -/
theorem password_never_in_response_witness :
    ((serialize_user_out (create_user_response_model
        ⟨"alice", "pw1", "user@example.com", none⟩)).map Prod.fst).contains
      "password" = false ∧
    create_user_response_model ⟨"alice", "pw1", "user@example.com", none⟩ =
      create_user_response_model ⟨"alice", "pw2", "user@example.com", none⟩ ∧
    create_user_inherited ⟨"alice", "pw1", "user@example.com", none⟩ =
      create_user_inherited ⟨"alice", "pw2", "user@example.com", none⟩ := by
  have h := password_never_in_response ⟨"alice", "pw1", "user@example.com", none⟩
    ⟨"alice", "pw2", "user@example.com", none⟩ (by decide)
  exact ⟨h.1, (h.2.2 rfl rfl rfl).1, (h.2.2 rfl rfl rfl).2⟩

/-- C3: `GET /models/{model_name}` produces the branch messages of
Day02/03.py for the three enumeration members, and any other path
segment is rejected by validation before the handler runs. -/
theorem get_model_branches :
    (get_model .alexnet).message = "Deep Learning FTW!" ∧
    (get_model .lenet).message = "LeCNN all the images" ∧
    (get_model .resnet).message = "Have some residuals" ∧
    ∀ s : String, s ≠ "alexnet" → s ≠ "resnet" → s ≠ "lenet" →
      parse_model_name s = none := by
  refine ⟨by decide, by decide, by decide, ?_⟩
  intro s h1 h2 h3
  simp [parse_model_name, h1, h2, h3]

/-- Witness for C3 at the segment `"vgg"`. -/
theorem get_model_branches_witness : parse_model_name "vgg" = none :=
  get_model_branches.2.2.2 "vgg" (by decide) (by decide) (by decide)

/-- C4: for Day02/11.py's route, a present id with neither valid prefix
fails validation with a value-error diagnostic; a present valid id is
looked up in the fixed 3-entry mapping; an absent id yields the entry of
the mapping picked by the random source, whose id key is always a member
of the fixture key set. -/
theorem custom_id_validator_spec :
    (∀ s : String, (pyStartsWith s "isbn-" || pyStartsWith s "imdb-") = false →
      ∀ choice : Fin 3, read_items_by_id_route (some s) choice =
        .error "Invalid ID format, it must start with \"isbn-\" or \"imdb-\"") ∧
    (∀ s : String, (pyStartsWith s "isbn-" || pyStartsWith s "imdb-") = true →
      ∀ choice : Fin 3, read_items_by_id_route (some s) choice =
        .ok { id := s, name := fixture_data.lookup s }) ∧
    (∀ choice : Fin 3,
      read_items_by_id_route none choice =
        .ok { id := (random_fixture_entry choice).1,
              name := some (random_fixture_entry choice).2 } ∧
      (fixture_data.map Prod.fst).contains (random_fixture_entry choice).1 = true) ∧
    read_items_by_id_route (some "isbn-9781529046137") (0 : Fin 3) =
      .ok { id := "isbn-9781529046137",
            name := some "The Hitchhiker\x27s Guide to the Galaxy" } := by
  refine ⟨?_, ?_, ?_, by rfl⟩
  · intro s h choice
    simp [read_items_by_id_route, validate_id_query, check_valid_id, h, Except.map]
  · intro s h choice
    have hne : s ≠ "" := by
      intro he
      subst he
      exact absurd h (by decide)
    simp [read_items_by_id_route, validate_id_query, check_valid_id, h,
      read_items_by_id_handler, Except.map, hne]
  · intro choice
    refine ⟨rfl, ?_⟩
    fin_cases choice <;> decide

/-- Witness for C4 at the ids `"invalid-id"` and
`"isbn-9781529046137"`. -/
theorem custom_id_validator_spec_witness :
    read_items_by_id_route (some "invalid-id") (0 : Fin 3) =
      .error "Invalid ID format, it must start with \"isbn-\" or \"imdb-\"" ∧
    read_items_by_id_route (some "isbn-9781529046137") (1 : Fin 3) =
      .ok { id := "isbn-9781529046137",
            name := fixture_data.lookup "isbn-9781529046137" } :=
  ⟨custom_id_validator_spec.1 "invalid-id" (by decide) (0 : Fin 3),
   custom_id_validator_spec.2.1 "isbn-9781529046137" (by decide) (1 : Fin 3)⟩

/-- C5: the paginated `GET /items/` returns the Python sub-range
`fake_items_db[skip : skip + limit]` of the fixed three-element fixture
list; in particular skip=0,limit=2 yields the first two fixture items and
skip=1,limit=2 yields the last two. -/
theorem read_items_paginated_spec :
    (∀ skip limit : Nat,
      read_items_paginated skip limit = pySlice fake_items_db skip (skip + limit)) ∧
    read_items_paginated 0 2 = [{ item_name := "Foo" }, { item_name := "Bar" }] ∧
    read_items_paginated 1 2 = [{ item_name := "Bar" }, { item_name := "Baz" }] := by
  refine ⟨?_, by decide, by decide⟩
  intro skip limit
  rw [pySlice_eq_drop_take, Nat.add_sub_cancel_left]
  rfl

/-- C6: the length-constrained `q` of Day02/09.py is accepted exactly
when its length is between 3 and 50 inclusive; lengths 2 and 51 fail
validation while 3 and 50 succeed; an accepted, present `q` yields the
fixed two-item list plus a `"q"` key. -/
theorem constrained_q_spec :
    (∀ s : String,
      validate_q_constrained (some s) = true ↔ 3 ≤ s.length ∧ s.length ≤ 50) ∧
    (∀ s : String, s.length = 2 → validate_q_constrained (some s) = false) ∧
    (∀ s : String, s.length = 3 → validate_q_constrained (some s) = true) ∧
    (∀ s : String, s.length = 50 → validate_q_constrained (some s) = true) ∧
    (∀ s : String, s.length = 51 → validate_q_constrained (some s) = false) ∧
    (∀ s : String, validate_q_constrained (some s) = true →
      read_items_constrained_route (some s) =
        .ok { items := [{ item_id := "Foo" }, { item_id := "Bar" }],
              q := some s }) := by
  have hiff : ∀ s : String,
      validate_q_constrained (some s) = true ↔ 3 ≤ s.length ∧ s.length ≤ 50 := by
    intro s
    simp [validate_q_constrained]
  refine ⟨hiff, ?_, ?_, ?_, ?_, ?_⟩
  · intro s hl
    simp [validate_q_constrained, hl]
  · intro s hl
    simp [validate_q_constrained, hl]
  · intro s hl
    simp [validate_q_constrained, hl]
  · intro s hl
    simp [validate_q_constrained, hl]
  · intro s hv
    have hne : s ≠ "" := by
      intro he
      subst he
      have := ((hiff "").mp hv).1
      simp at this
    simp [read_items_constrained_route, hv, read_items_constrained_handler, hne]

/-- Witness for C6 at the accepted 3-character query `"abc"`. -/
theorem constrained_q_spec_witness :
    validate_q_constrained (some "abc") = true ∧
    read_items_constrained_route (some "abc") =
      .ok { items := [{ item_id := "Foo" }, { item_id := "Bar" }],
            q := some "abc" } :=
  ⟨(constrained_q_spec.1 "abc").mpr (by decide),
   constrained_q_spec.2.2.2.2.2 "abc" (by decide)⟩

/-- C7: the constrained `Item` record of Day04/01.py accepts a payload
exactly when name is present with length 1–100, description (when
present) has at most 500 characters, price is present with 0 < price ≤
1000000, and tax (when present) satisfies 0 ≤ tax ≤ 100; any violation
rejects the request before the `PUT /items/{item_id}` handler runs. -/
theorem item_field_constraints_spec :
    ∀ p : ItemPayload,
      (validate_item_fields p = true ↔
        ((∃ s, p.name = some s ∧ 1 ≤ s.length ∧ s.length ≤ 100) ∧
         (∀ s, p.description = some s → s.length ≤ 500) ∧
         (∃ x, p.price = some x ∧ 0 < x ∧ x ≤ 1000000) ∧
         (∀ x, p.tax = some x → 0 ≤ x ∧ x ≤ 100))) ∧
      (validate_item_fields p = false → ∀ i : Int, create_item i p = none) ∧
      (validate_item_fields p = true →
        ∀ i : Int, create_item i p = some { item_id := i, item := p }) := by
  intro p
  refine ⟨?_, fun h i => by simp [create_item, h], fun h i => by simp [create_item, h]⟩
  rcases p with ⟨name, desc, price, tax⟩
  cases name <;> cases desc <;> cases price <;> cases tax <;>
    simp [validate_item_fields, and_assoc]

/-- Witness for C7 at a concrete accepted payload. -/
theorem item_field_constraints_spec_witness :
    create_item 123
        ({ name := some "Widget", description := none,
           price := some 20, tax := some 2 } : ItemPayload) =
      some { item_id := 123,
             item := { name := some "Widget", description := none,
                       price := some 20, tax := some 2 } } :=
  (item_field_constraints_spec
      { name := some "Widget", description := none,
        price := some 20, tax := some 2 }).2.2 (by decide) 123

/-- C8: after creating a Student row and a Course row whose foreign key
references that Student's primary key, the student/course join returns
exactly one paired row per foreign-key link (as in the Day06/05.py
fixtures), and querying Courses for a nonexistent student id returns no
rows. -/
theorem student_course_join_spec :
    (∀ (s : Student) (c : Course) (sid : Int),
      s.id = some sid → c.stu_id = some sid →
      select_student_course [s] [c] = [(s, c)]) ∧
    (∀ (courses : List Course) (sid : Int),
      (∀ c ∈ courses, c.stu_id ≠ some sid) →
      courses_of_student courses sid = []) ∧
    select_student_course fixture_students fixture_courses =
      [({ id := some 1, name := "liming", age := 18 },
        { id := some 1, name := "math", stu_id := some 1 }),
       ({ id := some 2, name := "zhangsan", age := 19 },
        { id := some 2, name := "chinese", stu_id := some 2 })] ∧
    (∀ sid : Int, sid ≠ 1 → sid ≠ 2 →
      courses_of_student fixture_courses sid = []) := by
  refine ⟨?_, courses_of_student_eq_nil, by decide, ?_⟩
  · intro s c sid hs hc
    simp [select_student_course, hs, hc]
  · intro sid h1 h2
    refine courses_of_student_eq_nil _ _ ?_
    intro c hc
    simp only [fixture_courses, List.mem_cons, List.not_mem_nil, or_false] at hc
    rcases hc with hc | hc <;> subst hc <;> simp <;> omega

/-- Witness for C8 at one concrete student/course link and one
nonexistent student id. -/
theorem student_course_join_spec_witness :
    select_student_course [{ id := some 1, name := "liming", age := 18 }]
        [{ id := some 1, name := "math", stu_id := some 1 }] =
      [({ id := some 1, name := "liming", age := 18 },
        { id := some 1, name := "math", stu_id := some 1 })] ∧
    courses_of_student fixture_courses 99 = [] :=
  ⟨student_course_join_spec.1 _ _ 1 rfl rfl,
   student_course_join_spec.2.2.2 99 (by decide) (by decide)⟩

/-- C9: the final `get_name_with_age` of Day01/02.py renders a present
age as `"<name> is this old: <age>"` with the age rendered as text, and
an absent age as `"<name> has no age"`; in particular John/25 and
Jane/25.5 produce the documented strings. -/
theorem aged_description_spec :
    (∀ (name : String) (a : PyNumber),
      get_name_with_age name (some a) = name ++ " is this old: " ++ a.str) ∧
    (∀ name : String, get_name_with_age name none = name ++ " has no age") ∧
    get_name_with_age "John" (some (.int 25)) = "John is this old: 25" ∧
    get_name_with_age "Jane" (some (.float 25 "5")) = "Jane is this old: 25.5" :=
  ⟨fun _ _ => rfl, fun _ => rfl, by decide, by decide⟩

/-- C10: the route of Day02/06.py declares `item_id` as text, so every
path segment passes framework validation (the route never produces a
structured validation diagnostic), and on every non-numeric segment the
handler's own `int(item_id)` conversion fails as an unhandled error. -/
theorem text_path_param_spec :
    ∀ (s : String) (q : Option String) (short : Bool),
      validate_item_id_text s = true ∧
      read_item_path_query s q short ≠ RouteOutcome.validationError ∧
      (pyInt s = none → read_item_path_query s q short = RouteOutcome.unhandledError) := by
  intro s q short
  refine ⟨rfl, ?_, fun h => by simp [read_item_path_query, validate_item_id_text, h]⟩
  cases hp : pyInt s <;>
    simp [read_item_path_query, validate_item_id_text, hp]

/-- Witness for C10 at the non-numeric segment `"abc"`. -/
theorem text_path_param_spec_witness :
    read_item_path_query "abc" none false = RouteOutcome.unhandledError :=
  (text_path_param_spec "abc" none false).2.2 (by decide)
